import Mathlib

/-!
Verification development for the PICASO 3D printer protocol client
(custom_components/picaso_3d/api.py).

Modelling conventions:
- wire bytes are `List Nat` with each element a byte value (the encoder
  produces values < 256 by construction; decoders combine bytes
  little-endian exactly as the `struct` format strings "BBHHH", "b",
  "h", "i", "H", "I" do on the reference little-endian host);
- Python `bytes`/`str` values are `List Nat` (byte values / code points);
- the Python stdlib text codecs (utf-8 / cp1251) are external to the
  repository and are passed in as a `codec : Bool -> List Nat -> Option (List Nat)`
  parameter, the Bool being the supports_utf8 flag that selects the
  code page; `none` models a UnicodeDecodeError;
- fallible operations return `Option` or `Except PyErr`;
- IEEE-754 float fields of the state payload keep their raw 32-bit
  pattern (no claim concerns their numeric meaning).
-/
set_option maxRecDepth 100000

/-- Little-endian value of a byte list, least significant byte first. -/
def leValue : List Nat → Nat
  | [] => 0
  | b :: bs => b + 256 * leValue bs

/-- struct.unpack_from of an n-byte unsigned little-endian integer at `off`;
fails (struct.error) when fewer than n bytes remain. -/
def readUIntLE (data : List Nat) (off n : Nat) : Option Nat :=
  if off + n ≤ data.length then some (leValue ((data.drop off).take n)) else none

/-- Two-complement reinterpretation of an n-byte unsigned value as signed. -/
def toSigned (n v : Nat) : Int :=
  if v < 2 ^ (8 * n - 1) then (v : Int) else (v : Int) - 2 ^ (8 * n)

/-- struct.unpack_from of an n-byte signed little-endian integer at `off`. -/
def readIntLE (data : List Nat) (off n : Nat) : Option Int :=
  (readUIntLE data off n).map (toSigned n)

/-- struct.unpack_from of an n-byte raw field ("ns") at `off`. -/
def readBytes (data : List Nat) (off n : Nat) : Option (List Nat) :=
  if off + n ≤ data.length then some ((data.drop off).take n) else none

/-!  Frame codec (send_request header build / _unpack_payload_header). -/
/-- Header+payload build of `send_request`:
struct.pack("BBHHH", protocol_major, protocol_minor, command_code, 0, len(data)+8)
followed by the payload bytes.  struct.pack raises (modelled as `none`)
when an argument does not fit its field. -/
def encodeFrame (pmaj pmin cmd : Nat) (data : List Nat) : Option (List Nat) :=
  if pmaj < 256 ∧ pmin < 256 ∧ cmd < 65536 ∧ data.length + 8 < 65536 then
    some ([pmaj, pmin, cmd % 256, cmd / 256, 0, 0,
           (data.length + 8) % 256, (data.length + 8) / 256] ++ data)
  else none

/-- `_unpack_payload_header`: struct.unpack_from("BBHHH", payload, 0), i.e.
(protocol_major, protocol_minor, command_code, unknown_parameter, payload_size);
fails when fewer than 8 bytes are supplied. -/
def unpackPayloadHeader (payload : List Nat) :
    Option (Nat × Nat × Nat × Nat × Nat) :=
  match payload with
  | b0 :: b1 :: b2 :: b3 :: b4 :: b5 :: b6 :: b7 :: _ =>
      some (b0, b1, b2 + 256 * b3, b4 + 256 * b5, b6 + 256 * b7)
  | _ => none

/-!  Standard string codec (decode_standard_string / encode_standard_string). -/
/-- Characters stripped from the right of every decoded string:
NUL, newline, tab, carriage return, space (the Python rstrip set). -/
def isStripChar (c : Nat) : Bool := c = 0 ∨ c = 10 ∨ c = 9 ∨ c = 13 ∨ c = 32

/-- value.rstrip of the NUL/newline/tab/CR/space set. -/
def rstripStd (s : List Nat) : List Nat :=
  (s.reverse.dropWhile isStripChar).reverse

/-- `decode_standard_string` on a bytes argument: decode with the code page
selected by supports_utf8 (`dec` is the stdlib byte decoder), then rstrip
the padding set. -/
def decode_standard_string (dec : Bool → List Nat → Option (List Nat))
    (supportsUtf8 : Bool) (value : List Nat) : Option (List Nat) :=
  (dec supportsUtf8 value).map rstripStd

/-- `encode_standard_string` on a str argument: rstrip the padding set,
then encode with the code page selected by supports_utf8 (`enc` is the
stdlib string encoder). -/
def encode_standard_string (enc : Bool → List Nat → Option (List Nat))
    (supportsUtf8 : Bool) (value : List Nat) : Option (List Nat) :=
  enc supportsUtf8 (rstripStd value)

/-!  Transport response collection (send_request response loop). -/
/-- Python exception kinds raised by the modelled code paths. -/
inductive PyErr where
  | typeError
  | timeoutError
  | valueError
  | structError
  | unicodeError
  | exhausted
deriving DecidableEq

/-- Transport result pushed by `_read_single_response`
(header fields plus the payload after the 8-byte header). -/
structure ParsedPayload where
  protocol_major : Nat
  protocol_minor : Nat
  command_code : Nat
  data : List Nat
deriving DecidableEq

/-- Outcome of one `_read_single_response` call inside the collection loop:
a parsed response, a TimeoutError, or another raised error (e.g. a header
mismatch ValueError, which the loop does not catch). -/
inductive ReadOutcome where
  | ok (resp : ParsedPayload)
  | timeout
  | fail (e : PyErr)
deriving DecidableEq

/-- The `while num_responses > len(responses)` body of `send_request`, for a
concrete integer num_responses = n: each iteration consumes the outcome of
the next `_read_single_response` call; a TimeoutError is re-raised because
num_responses is not None on this path; `exhausted` marks a model input that
ran out of supplied read outcomes (unreachable in the settled claims). -/
def collectLoop (n : Nat) (acc : List ParsedPayload) :
    List ReadOutcome → Except PyErr (List ParsedPayload)
  | [] => if acc.length < n then .error .exhausted else .ok acc
  | r :: rest =>
      if acc.length < n then
        match r with
        | .ok p => collectLoop n (acc ++ [p]) rest
        | .timeout => .error .timeoutError
        | .fail e => .error e
      else .ok acc

/-- The response-collection phase of `send_request`.  The loop condition is
literally `num_responses > len(responses)`; when num_responses is None this
comparison of None against an int raises TypeError before any read. -/
def send_request_collect (num_responses : Option Nat) (reads : List ReadOutcome) :
    Except PyErr (List ParsedPayload) :=
  match num_responses with
  | none => .error .typeError
  | some n => collectLoop n [] reads

/-- A sample parsed response used by concrete transport scenarios. -/
def samplePayload : ParsedPayload :=
  { protocol_major := 1, protocol_minor := 1, command_code := 1, data := [] }

/-!  Device identity state (Picaso3DPrinter instance attributes).

String-valued attributes keep the source underscore-field semantics:
`none` is the initial Python None, `some cs` a decoded string.  The mac
attribute stores the raw six bytes (the colon-hex presentation is not
needed by any claim).  The four `cached_property` capability flags are
modelled by one Option Bool cache field each: `none` means the property
has never been read on this instance. -/
structure Printer where
  host : Nat
  port : Nat
  protocol_major : Int
  protocol_minor : Int
  hw_version_minor : Int
  hw_version_major : Int
  fw_version_major : Int
  fw_version_minor : Int
  fw_version_revision : Int
  nameF : Option (List Nat)
  serialF : Option (List Nat)
  macF : Option (List Nat)
  first_nozzle_name : Option (List Nat)
  first_nozzle_type : Int
  second_nozzle_name : Option (List Nat)
  second_nozzle_type : Int
  first_profile_name : Option (List Nat)
  second_profile_name : Option (List Nat)
  utf8_cache : Option Bool
  clean_cache : Option Bool
  preheat_cache : Option Bool
  profiles_cache : Option Bool
deriving DecidableEq

/-- Default port 54321 used when a Picaso3DPrinter is built from a host only. -/
def DEFAULT_INTERACTION_PORT : Nat := 54321

/-- `Picaso3DPrinter.__init__`: initial attribute values.
NozzleType.NONE is the integer -1. -/
def initPrinter (host : Nat) (port : Nat) : Printer :=
  { host := host
    port := port
    protocol_major := 0
    protocol_minor := 0
    hw_version_minor := -1
    hw_version_major := -1
    fw_version_major := 0
    fw_version_minor := 0
    fw_version_revision := 0
    nameF := none
    serialF := none
    macF := none
    first_nozzle_name := none
    first_nozzle_type := -1
    second_nozzle_name := none
    second_nozzle_type := -1
    first_profile_name := none
    second_profile_name := none
    utf8_cache := none
    clean_cache := none
    preheat_cache := none
    profiles_cache := none }

/-!  Capability gate: the four pure version predicates, transcribed from the
bodies of the cached properties supports_utf8, supports_clean_filesystem,
supports_preheat_journal and supports_profiles. -/
def supports_utf8_value (p : Printer) : Bool :=
  decide (p.protocol_major > 1 ∨
    (p.protocol_major = 1 ∧
      (p.protocol_minor > 2 ∨
        (p.protocol_minor = 2 ∧
          (p.fw_version_major > 5 ∨
            (p.fw_version_major = 5 ∧ p.fw_version_minor ≥ 9))))))

def supports_clean_filesystem_value (p : Printer) : Bool :=
  decide (p.protocol_major = 1 ∧ p.protocol_minor = 2 ∧
    (p.fw_version_major > 5 ∨
      (p.fw_version_major = 5 ∧
        (p.fw_version_minor > 9 ∨
          (p.fw_version_minor = 9 ∧ p.fw_version_revision ≥ 58)))))

def supports_preheat_journal_value (p : Printer) : Bool :=
  decide (p.protocol_major = 1 ∧ p.protocol_minor = 2 ∧
    (p.fw_version_major > 6 ∨
      (p.fw_version_major = 6 ∧
        (p.fw_version_minor > 1 ∨
          (p.fw_version_minor = 1 ∧ p.fw_version_revision ≥ 33)))))

def supports_profiles_value (p : Printer) : Bool :=
  decide (p.protocol_major = 1 ∧
    ((p.protocol_minor ≤ 1 ∧
        (p.fw_version_major > 5 ∨
          (p.fw_version_major = 5 ∧ p.fw_version_minor ≥ 220))) ∨
      p.protocol_minor = 2))

/-!  cached_property reads: the first access computes the predicate from the
current version attributes and stores it; later accesses return the stored
value; nothing in the class ever deletes a stored value. -/
def readSupportsUtf8 (p : Printer) : Bool × Printer :=
  match p.utf8_cache with
  | some v => (v, p)
  | none => (supports_utf8_value p, { p with utf8_cache := some (supports_utf8_value p) })

def readSupportsCleanFilesystem (p : Printer) : Bool × Printer :=
  match p.clean_cache with
  | some v => (v, p)
  | none =>
      (supports_clean_filesystem_value p,
       { p with clean_cache := some (supports_clean_filesystem_value p) })

def readSupportsPreheatJournal (p : Printer) : Bool × Printer :=
  match p.preheat_cache with
  | some v => (v, p)
  | none =>
      (supports_preheat_journal_value p,
       { p with preheat_cache := some (supports_preheat_journal_value p) })

def readSupportsProfiles (p : Printer) : Bool × Printer :=
  match p.profiles_cache with
  | some v => (v, p)
  | none =>
      (supports_profiles_value p,
       { p with profiles_cache := some (supports_profiles_value p) })

/-- One iteration of the toolhead loop of `_apply_printer_info`: ten name
bytes through the name setter, one signed nozzle-type byte (the NozzleType
conversion swallows ValueError, so the integer is stored unchanged), forty
profile-name bytes through the profile setter.  The three setters are the
prefix-selected attribute writes. -/
def applyToolhead (dec : Bool → List Nat → Option (List Nat))
    (setNozzleName : Printer → List Nat → Printer)
    (setNozzleType : Printer → Int → Printer)
    (setProfileName : Printer → List Nat → Printer)
    (p : Printer) (data : List Nat) (base : Nat) : Option Printer := do
  let nn ← readBytes data base 10
  let (u, p) := readSupportsUtf8 p
  let nns ← decode_standard_string dec u nn
  let p := setNozzleName p nns
  let nt ← readIntLE data (base + 10) 1
  let p := setNozzleType p nt
  let pn ← readBytes data (base + 11) 40
  let (u, p) := readSupportsUtf8 p
  let pns ← decode_standard_string dec u pn
  pure (setProfileName p pns)

/-- Firmware fields for protocol_minor 0: fw minor is one signed byte;
the firmware major field follows at index 3. -/
def fwFieldsMinor0 (p : Printer) (data : List Nat) : Option (Printer × Nat) := do
  let fwMin ← readIntLE data 2 1
  pure (({ p with fw_version_minor := fwMin } : Printer), 3)

/-- Firmware fields for protocol_minor 1: fw minor is a two-byte
little-endian signed value; the firmware major field follows at index 4. -/
def fwFieldsMinor1 (p : Printer) (data : List Nat) : Option (Printer × Nat) := do
  let fwMin ← readIntLE data 2 2
  pure (({ p with fw_version_minor := fwMin } : Printer), 4)

/-- Firmware fields for protocol_minor 2: fw revision byte then fw minor
byte; the firmware major field follows at index 4. -/
def fwFieldsMinor2 (p : Printer) (data : List Nat) : Option (Printer × Nat) := do
  let fwRev ← readIntLE data 2 1
  let fwMin ← readIntLE data 3 1
  let p := { p with fw_version_revision := fwRev, fw_version_minor := fwMin }
  pure ((p : Printer), 4)

/-- The version part of `_apply_printer_info`: hardware minor and major
(one signed byte each), then the protocol_minor-dependent firmware fields
(selected among the three arms above; any other minor reads nothing), then
the firmware major signed byte.  The returned cursor is the byte index of
the firmware major field. -/
def applyVersionFields (p : Printer) (pmin : Int) (data : List Nat) :
    Option (Printer × Nat) :=
  (readIntLE data 0 1).bind fun hwMin =>
  (readIntLE data 1 1).bind fun hwMaj =>
  let p1 : Printer := { p with hw_version_minor := hwMin, hw_version_major := hwMaj }
  (if pmin = 0 then fwFieldsMinor0 p1 data
   else if pmin = 1 then fwFieldsMinor1 p1 data
   else if pmin = 2 then fwFieldsMinor2 p1 data
   else some (p1, 2)).bind fun po =>
  (readIntLE data po.2 1).bind fun fwMaj =>
  some (({ po.1 with fw_version_major := fwMaj } : Printer), po.2)

/-- The name/serial/mac part of `_apply_printer_info`: twenty name bytes and
fifty serial bytes through their setters (each setter reads the
supports_utf8 cached property and decodes), then six raw mac bytes.
`off` is the byte index of the firmware major field. -/
def applyTextFields (dec : Bool → List Nat → Option (List Nat))
    (p : Printer) (data : List Nat) (off : Nat) : Option Printer := do
  let nameBytes ← readBytes data (off + 1) 20
  let (u, p) := readSupportsUtf8 p
  let nameStr ← decode_standard_string dec u nameBytes
  let p := { p with nameF := some nameStr }
  let serialBytes ← readBytes data (off + 21) 50
  let (u, p) := readSupportsUtf8 p
  let serialStr ← decode_standard_string dec u serialBytes
  let p := { p with serialF := some serialStr }
  let macBytes ← readBytes data (off + 71) 6
  pure { p with macF := some macBytes }

/-- `_apply_printer_info`: forward-cursor parse of the identity payload into
the instance attributes.  The firmware field widths depend on protocol_minor
(one signed byte for minor 0, a two-byte little-endian signed value for
minor 1, revision byte then minor byte for minor 2, nothing for any other
minor); fixed-width text fields go through the name/serial/nozzle/profile
setters, each of which calls decode_standard_string with the supports_utf8
cached property (so the first such call during a parse computes and caches
the flag from the version fields just applied); the nozzle type byte is
converted to NozzleType with a swallowed ValueError, so unmapped codes keep
the raw integer.  Any unpack or decode failure is re-raised (`none`). -/
def applyPrinterInfo (dec : Bool → List Nat → Option (List Nat))
    (p : Printer) (pmaj pmin : Int) (data : List Nat) : Option Printer := do
  let p := { p with protocol_major := pmaj, protocol_minor := pmin }
  let (p, off) ← applyVersionFields p pmin data
  let p ← applyTextFields dec p data off
  let p ← applyToolhead dec
    (fun q v => { q with first_nozzle_name := some v })
    (fun q v => { q with first_nozzle_type := v })
    (fun q v => { q with first_profile_name := some v })
    p data (off + 77)
  applyToolhead dec
    (fun q v => { q with second_nozzle_name := some v })
    (fun q v => { q with second_nozzle_type := v })
    (fun q v => { q with second_profile_name := some v })
    p data (off + 128)

/-- A byte codec usable for concrete scenarios: both code pages act as the
identity on seven-bit bytes and reject anything else. -/
def asciiDec (_flag : Bool) (bs : List Nat) : Option (List Nat) :=
  if bs.all (fun b => b < 128) then some bs else none

def CacheKept (p q : Printer) : Prop :=
  q.profiles_cache = p.profiles_cache ∧ q.clean_cache = p.clean_cache ∧
    q.preheat_cache = p.preheat_cache ∧
    ∀ v, p.utf8_cache = some v → q.utf8_cache = some v

/-- A printer record carrying given protocol and firmware version values,
all other attributes at their constructor defaults. -/
def printerWithVersions (pmaj pmin fwmaj fwmin : Int) : Printer :=
  { initPrinter 0 54321 with
    protocol_major := pmaj
    protocol_minor := pmin
    fw_version_major := fwmaj
    fw_version_minor := fwmin }

/-- An all-zero identity payload of the length parsed for protocol_minor 2. -/
def zeros183 : List Nat := List.replicate 183 0

/-- A fresh device on which supports_profiles has been read once (caching the
value computed from the constructor default version fields). -/
def c6Printer : Printer := (readSupportsProfiles (initPrinter 0 54321)).2

/-- A fresh device with all four capability caches filled with false. -/
def c6Cached : Printer :=
  { initPrinter 0 54321 with
    utf8_cache := some false
    clean_cache := some false
    preheat_cache := some false
    profiles_cache := some false }

/-- The device state after an identity refresh of `c6Cached` with protocol
(1, 2) and an all-zero payload. -/
def c6CachedAfter : Printer :=
  (applyPrinterInfo asciiDec c6Cached 1 2 zeros183).getD (initPrinter 0 0)

/-!  State decoder (get_printer_state).  The live-state record mirrors the
PrinterState dataclass; enum-valued fields store the integer value (Python
IntEnum members compare equal to their integers), the four temperature
fields and task_progress keep the raw 32-bit pattern of the wire float,
and task_remaining keeps the unsigned seconds value that the source widens
to float. -/
/-- EventData named tuple: code, severity, source, timestamp, all stored as
the integer values of the enum-or-raw fields. -/
structure EventData where
  code : Int
  severity : Int
  source : Int
  timestamp : Int
deriving DecidableEq

structure PrinterStateRec where
  state : Int
  status : Int
  task_name : List Nat
  task_progress : Nat
  task_remaining : Nat
  first_nozzle_temperature : Nat
  second_nozzle_temperature : Nat
  chamber_temperature : Nat
  bed_temperature : Nat
  events : List EventData
  pause_reason : Nat
  stop_reason : Nat
  ready : Bool
  preheat_state : Bool
  events_require_upgrade : Bool
deriving DecidableEq

/-- Membership in the NetPrinterState enumeration (values 0 through 8);
the source converts with NetPrinterState(x), which raises ValueError for
any other value. -/
def netPrinterStateValid (x : Int) : Bool := decide (0 ≤ x ∧ x ≤ 8)

/-- Membership in the NetPrinterStatus enumeration (0 through 10, plus
CONNECTION_ERROR = 0x80000000 and INITIAL_STATE = 0x80000004); converted
with NetPrinterStatus(x), which raises ValueError otherwise. -/
def netPrinterStatusValid (x : Int) : Bool :=
  decide ((0 ≤ x ∧ x ≤ 10) ∨ x = 2147483648 ∨ x = 2147483652)

/-- PrinterType(hw_version_major).is_series_2: true exactly for the four
series-2 members DesignerX2 = 12, DesignerXL2 = 13, DesignerXPro2 = 14,
DesignerXLPro2 = 15 (an unmapped hardware major falls back to UNKNOWN,
which is not series 2). -/
def printerTypeIsSeriesTwo (hw : Int) : Bool :=
  decide (hw = 12 ∨ hw = 13 ∨ hw = 14 ∨ hw = 15)

/-- Option to Except lift: a `none` becomes the given raised error. -/
def liftO {α : Type} (o : Option α) (e : PyErr) : Except PyErr α :=
  match o with
  | some a => .ok a
  | none => .error e

/-- `_parse_event` for protocol majors 0 and 1: one signed four-byte id;
id at most 0 yields no event, otherwise the record carries code = id,
EventSeverity(0) = INFO (integer 0), EventSource(0) = NONE (integer 0)
and timestamp 0. -/
def parse_event_v01 (content : List Nat) : Option (Option EventData) :=
  (readIntLE content 0 4).map fun event_id =>
    if event_id ≤ 0 then none
    else some { code := event_id, severity := 0, source := 0, timestamp := 0 }

/-- `_parse_event` for protocol major 2: an unsigned two-byte id; id 0
yields no event, otherwise severity = id AND 7, source = (id shifted right
10) AND 63, a four-byte unsigned timestamp at offset 2, and
code = (id shifted right 3) AND 127.  The severity and source enum
conversions swallow ValueError, so the integers are kept either way. -/
def parse_event_v2 (content : List Nat) : Option (Option EventData) :=
  (readUIntLE content 0 2).bind fun event_id =>
    if event_id = 0 then some none
    else
      (readUIntLE content 2 4).map fun ts =>
        some { code := Int.ofNat ((event_id >>> 3) &&& 127)
               severity := Int.ofNat (event_id &&& 7)
               source := Int.ofNat ((event_id >>> 10) &&& 63)
               timestamp := Int.ofNat ts }

/-- The event slot loop of get_printer_state: `count` slots of `elen` bytes
starting at byte `start`; each slot is sliced (a Python slice clamps) and
parsed; parsed events are appended in slot order, empty slots skipped;
a struct failure inside a slot propagates. -/
def eventLoop (pf : List Nat → Option (Option EventData)) (data : List Nat)
    (elen : Nat) : Nat → Nat → Option (List EventData)
  | _, 0 => some []
  | start, Nat.succ k =>
      (pf ((data.drop start).take elen)).bind fun e =>
        (eventLoop pf data elen (start + elen) k).map fun rest =>
          match e with
          | none => rest
          | some ev => ev :: rest

/-- The local `events` list built by get_printer_state (source lines
998-1006): five 4-byte slots for majors 0 and 1, ten 6-byte slots for
major 2, zero slots when the series-2 override fired; slots start at
payload offset 315 + first_offset - 8.  The source never assigns this
list to the returned state. -/
def stateEventsLocal (rmaj : Nat) (seriesTwo : Bool) (data : List Nat) :
    Option (List EventData) :=
  let fo : Nat := if rmaj = 1 then 1 else if rmaj = 2 then 4 else 0
  let cnt : Nat :=
    if seriesTwo ∧ (rmaj = 1 ∨ rmaj = 2) then 0
    else if rmaj = 2 then 10 else 5
  let elen : Nat := if rmaj = 2 then 6 else 4
  eventLoop (if rmaj = 2 then parse_event_v2 else parse_event_v01)
    data elen (315 + fo - 8) cnt

/-- The protocol-major branch of get_printer_state: checks the exact frame
size (payload length plus the 8 header bytes) of 343, 344 or 387 for
majors 0, 1 and 2 and raises ValueError otherwise (including for any other
major); returns the first_offset together with the ready and preheat flags
read pre-shift (the ready byte at payload offset 16 for major 1, the flag
word at offset 8 with bit0 = ready and bit1 = preheat for major 2). -/
def stateHeaderBranch (rmaj : Nat) (data : List Nat) :
    Except PyErr (Nat × Bool × Bool) :=
  if rmaj = 0 then
    if data.length + 8 = 343 then .ok (0, false, false) else .error .valueError
  else if rmaj = 1 then
    if data.length + 8 = 344 then
      match data[16]? with
      | some b => .ok (1, b != 0, false)
      | none => .error .structError
    else .error .valueError
  else if rmaj = 2 then
    if data.length + 8 = 387 then
      match readUIntLE data 8 4 with
      | some w => .ok (4, w &&& 1 != 0, w &&& 2 != 0)
      | none => .error .structError
    else .error .valueError
  else .error .valueError

/-- `get_printer_state`, modelled on the already-transported response
(protocol major `rmaj` and payload `data`): the major branch with its size
check and flag fields, the series-2 override (event region disabled and
events_require_upgrade set when the hardware is a series-2 model and the
major is 1 or 2), the state and status enum conversions (fatal ValueError
on an unmapped value), the task/progress/temperature/reason fields at
offsets shifted by first_offset - 8, and the event slot loop, whose
resulting list the source never stores: the returned record keeps the
empty default events list. -/
def get_printer_state (dec : Bool → List Nat → Option (List Nat))
    (self : Printer) (rmaj : Nat) (data : List Nat) :
    Except PyErr PrinterStateRec := do
  let (fo, rdy, ph) ← stateHeaderBranch rmaj data
  let s2 := printerTypeIsSeriesTwo self.hw_version_major
  let upgrade := s2 && (decide (rmaj = 1) || decide (rmaj = 2))
  let sv ← liftO (readIntLE data 0 4) .structError
  if netPrinterStateValid sv then pure () else throw PyErr.valueError
  let stv ← liftO (readIntLE data 4 4) .structError
  if netPrinterStatusValid stv then pure () else throw PyErr.valueError
  let nameBytes ← liftO (readBytes data (16 + fo - 8) 255) .structError
  let nm ← liftO (decode_standard_string dec (readSupportsUtf8 self).1 nameBytes)
    .unicodeError
  let prog ← liftO (readUIntLE data (275 + fo - 8) 4) .structError
  let rem ← liftO (readUIntLE data (287 + fo - 8) 4) .structError
  let t1 ← liftO (readUIntLE data (295 + fo - 8) 4) .structError
  let t2 ← liftO (readUIntLE data (299 + fo - 8) 4) .structError
  let t3 ← liftO (readUIntLE data (303 + fo - 8) 4) .structError
  let t4 ← liftO (readUIntLE data (307 + fo - 8) 4) .structError
  let pr ← liftO (readUIntLE data (335 + fo - 8) 4) .structError
  let sr ← liftO (readUIntLE data (339 + fo - 8) 4) .structError
  let _ ← liftO (stateEventsLocal rmaj s2 data) .structError
  pure { state := sv
         status := stv
         task_name := nm
         task_progress := prog
         task_remaining := rem
         first_nozzle_temperature := t1
         second_nozzle_temperature := t2
         chamber_temperature := t3
         bed_temperature := t4
         events := []
         pause_reason := pr
         stop_reason := sr
         ready := rdy
         preheat_state := ph
         events_require_upgrade := upgrade }

/-- A 336-byte major-1 state payload: state PRINTING (1), status
WAIT_NEW_TASK (4), first event slot id 5, everything else zero. -/
def c2StatePayload : List Nat :=
  (((List.replicate 336 0).set 0 1).set 4 4).set 308 5

/-- A 336-byte major-1 state payload whose state field holds 9, a value
with no NetPrinterState member. -/
def c4StatePayload : List Nat := (List.replicate 336 0).set 0 9

/-- A minor-0 identity payload whose first nozzle-type byte is 99, a value
with no NozzleType member. -/
def c4NozzlePayload : List Nat := (List.replicate 182 0).set 90 99

/-!  Discovery deduplication (search_printers, post-collection phase).
Input is the collected responses mapping in insertion order: one
(address, payload) pair per source address (during collection the protocol
keeps only the most recent payload per address).  An address is modelled as
a host identifier and port pair; only equality on it is used. -/
/-- printer.serial truthiness as used by `if not key`: false for None or
the empty string. -/
def serialTruthy (p : Printer) : Bool :=
  match p.serialF with
  | some s => !s.isEmpty
  | none => false

/-- The serial dictionary key of a parsed printer. -/
def serialKey (p : Printer) : List Nat := p.serialF.getD []

/-- One reply of the discovery sweep: parse the header (a failure is logged
and the reply skipped), require the discovery-reply command code 0x000C,
then apply the identity payload to a fresh printer built from the source
host (an apply failure discards the printer and skips the reply). -/
def parseSearchReply (dec : Bool → List Nat → Option (List Nat))
    (host : Nat) (data : List Nat) : Option Printer :=
  match unpackPayloadHeader data with
  | none => none
  | some (pmaj, pmin, cmd, _u, _sz) =>
      if cmd = 12 then
        applyPrinterInfo dec (initPrinter host DEFAULT_INTERACTION_PORT)
          (Int.ofNat pmaj) (Int.ofNat pmin) (data.drop 8)
      else none

/-- The collection loop of search_printers over the two insertion-ordered
dictionaries printers_by_serial and printers_by_addr (association lists;
a repeated key is skipped, a new key is appended). -/
def searchLoop (dec : Bool → List Nat → Option (List Nat)) :
    List ((Nat × Nat) × List Nat) → List (List Nat × Printer) →
      List ((Nat × Nat) × Printer) →
      List (List Nat × Printer) × List ((Nat × Nat) × Printer)
  | [], bySerial, byAddr => (bySerial, byAddr)
  | (addr, d) :: rest, bySerial, byAddr =>
      match parseSearchReply dec addr.1 d with
      | none => searchLoop dec rest bySerial byAddr
      | some printer =>
          if serialTruthy printer then
            if serialKey printer ∈ bySerial.map Prod.fst then
              searchLoop dec rest bySerial byAddr
            else
              searchLoop dec rest (bySerial ++ [(serialKey printer, printer)]) byAddr
          else
            if addr ∈ byAddr.map Prod.fst then
              searchLoop dec rest bySerial byAddr
            else
              searchLoop dec rest bySerial (byAddr ++ [(addr, printer)])

/-- search_printers result: the serial-keyed values first, then the
address-keyed values, each in insertion order. -/
def search_printers_dedup (dec : Bool → List Nat → Option (List Nat))
    (responses : List ((Nat × Nat) × List Nat)) : List Printer :=
  ((searchLoop dec responses [] []).1.map Prod.snd) ++
    ((searchLoop dec responses [] []).2.map Prod.snd)

/-- Specification-side shape: the parsed (address, printer) entries of the
well-formed replies, in reply order. -/
def discoveryEntries (dec : Bool → List Nat → Option (List Nat))
    (responses : List ((Nat × Nat) × List Nat)) :
    List ((Nat × Nat) × Printer) :=
  responses.filterMap fun ad =>
    (parseSearchReply dec ad.1.1 ad.2).map fun pr => (ad.1, pr)

/-- Keep the first occurrence of every key not yet seen, dropping later
duplicates. -/
def firstOccurrences {α κ : Type} [DecidableEq κ] (key : α → κ)
    (seen : List κ) : List α → List α
  | [] => []
  | x :: xs =>
      if key x ∈ seen then firstOccurrences key seen xs
      else x :: firstOccurrences key (key x :: seen) xs

/-- Specification-side shape of the discovery result, following the words
of the spec: entries with a non-empty serial deduplicated by serial (first
occurrence kept, in reply order) followed by entries with an empty serial
deduplicated by source address. -/
def searchResultSpec (dec : Bool → List Nat → Option (List Nat))
    (responses : List ((Nat × Nat) × List Nat)) : List Printer :=
  ((firstOccurrences (fun e => serialKey e.2) []
      ((discoveryEntries dec responses).filter fun e => serialTruthy e.2)).map
    fun e => e.2) ++
    ((firstOccurrences Prod.fst []
        ((discoveryEntries dec responses).filter fun e => !serialTruthy e.2)).map
      fun e => e.2)

/-- The serial-keyed entries produced by the loop, as key-value pairs. -/
def sEntries (dec : Bool → List Nat → Option (List Nat))
    (responses : List ((Nat × Nat) × List Nat)) : List (List Nat × Printer) :=
  responses.filterMap fun ad =>
    match parseSearchReply dec ad.1.1 ad.2 with
    | some pr => if serialTruthy pr then some (serialKey pr, pr) else none
    | none => none

/-- The address-keyed entries produced by the loop. -/
def aEntries (dec : Bool → List Nat → Option (List Nat))
    (responses : List ((Nat × Nat) × List Nat)) :
    List ((Nat × Nat) × Printer) :=
  responses.filterMap fun ad =>
    match parseSearchReply dec ad.1.1 ad.2 with
    | some pr => if serialTruthy pr then none else some (ad.1, pr)
    | none => none

/-- A discovery reply frame (command 0x000C, protocol 1.0) whose identity
payload carries serial "A". -/
def c8SerialReply : List Nat :=
  [1, 0, 12, 0, 0, 0, 0, 0] ++ (List.replicate 182 0).set 24 65

/-- A discovery reply frame (command 0x000C, protocol 1.0) whose identity
payload carries an empty serial. -/
def c8EmptyReply : List Nat :=
  [1, 0, 12, 0, 0, 0, 0, 0] ++ List.replicate 182 0

theorem dropWhile_dropWhile (p : Nat → Bool) (l : List Nat) :
    (l.dropWhile p).dropWhile p = l.dropWhile p := by
  induction l with
  | nil => rfl
  | cons a l ih =>
      by_cases h : p a
      · simpa [List.dropWhile, h] using ih
      · simp [List.dropWhile, h]

theorem rstripStd_idem (s : List Nat) : rstripStd (rstripStd s) = rstripStd s := by
  simp [rstripStd, dropWhile_dropWhile]

/-- C1: Frame codec round trip: for every valid major (0-255), minor (0-255),
command (0-65535) and data with at most 65527 bytes, decoding the header of
the encoded frame yields the same (major, minor, command), the zero reserved
field, and a total_length equal to the data length plus 8. -/
theorem frame_codec_round_trip (pmaj pmin cmd : Nat) (data : List Nat)
    (hmaj : pmaj < 256) (hmin : pmin < 256) (hcmd : cmd < 65536)
    (hlen : data.length ≤ 65527) :
    (encodeFrame pmaj pmin cmd data).bind unpackPayloadHeader =
      some (pmaj, pmin, cmd, 0, data.length + 8) := by
  have hfit : data.length + 8 < 65536 := by omega
  simp [encodeFrame, hmaj, hmin, hcmd, hfit, unpackPayloadHeader]
  omega

/-- Witness for C1 at a concrete frame. -/
theorem frame_codec_round_trip_witness :
    (encodeFrame 1 2 4660 [7, 7, 7]).bind unpackPayloadHeader =
      some (1, 2, 4660, 0, 11) :=
  frame_codec_round_trip 1 2 4660 [7, 7, 7]
    (by decide) (by decide) (by decide) (by decide)

/-- C10: String codec round trip: for every supports_utf8 flag b and every
string s representable in the code page selected by b (formalised: the
stdlib byte codec round-trips on the stripped string), decoding the
standard encoding of s yields s with trailing NUL, newline, tab,
carriage-return and space characters stripped; a string with no such
trailing characters round-trips to itself. -/
theorem string_codec_round_trip (enc dec : Bool → List Nat → Option (List Nat))
    (b : Bool) (s : List Nat)
    (hrep : (enc b (rstripStd s)).bind (dec b) = some (rstripStd s)) :
    (encode_standard_string enc b s).bind (decode_standard_string dec b) =
        some (rstripStd s) ∧
      (rstripStd s = s →
        (encode_standard_string enc b s).bind (decode_standard_string dec b) =
          some s) := by
  have hmain : (encode_standard_string enc b s).bind (decode_standard_string dec b) =
      some (rstripStd s) := by
    rcases hbs : enc b (rstripStd s) with _ | bs
    · rw [hbs] at hrep
      exact absurd hrep (by simp [Option.bind])
    · rw [hbs] at hrep
      simp only [Option.some_bind] at hrep
      simp [encode_standard_string, decode_standard_string, hbs, hrep, rstripStd_idem]
  refine ⟨hmain, fun hs => ?_⟩
  rw [hmain, hs]

/-- Witness for C10 with the identity byte codec and a concrete string. -/
theorem string_codec_round_trip_witness :
    (encode_standard_string (fun _ bs => some bs) true [65, 66, 32]).bind
        (decode_standard_string (fun _ bs => some bs) true) =
      some (rstripStd [65, 66, 32]) :=
  (string_codec_round_trip (fun _ bs => some bs) (fun _ bs => some bs) true
    [65, 66, 32] (by rfl)).1

/-- C5: Transport timeout policy.  The claim says an unconstrained (None)
expected count makes a per-read timeout end the loop silently with the
responses collected so far; the code instead evaluates
`num_responses > len(responses)` with None and raises TypeError before any
read, so no response collection ever happens on that path.  The constrained
half of the claim does hold: with a specific count, a timeout before
reaching it surfaces as a fatal error. -/
theorem send_request_timeout_policy :
    (∀ reads : List ReadOutcome,
        send_request_collect none reads = .error .typeError) ∧
      send_request_collect (some 2) [.ok samplePayload, .timeout] =
        .error .timeoutError := by
  constructor
  · intro reads
    rfl
  · rfl

theorem cacheKept_trans {p q r : Printer} (h1 : CacheKept p q) (h2 : CacheKept q r) :
    CacheKept p r :=
  ⟨h2.1.trans h1.1, h2.2.1.trans h1.2.1, h2.2.2.1.trans h1.2.2.1,
   fun v hv => h2.2.2.2 v (h1.2.2.2 v hv)⟩

theorem rsU_profiles (p : Printer) :
    (readSupportsUtf8 p).2.profiles_cache = p.profiles_cache := by
  cases h : p.utf8_cache <;> simp [readSupportsUtf8, h]

theorem rsU_clean (p : Printer) :
    (readSupportsUtf8 p).2.clean_cache = p.clean_cache := by
  cases h : p.utf8_cache <;> simp [readSupportsUtf8, h]

theorem rsU_preheat (p : Printer) :
    (readSupportsUtf8 p).2.preheat_cache = p.preheat_cache := by
  cases h : p.utf8_cache <;> simp [readSupportsUtf8, h]

theorem rsU_utf8_some (p : Printer) (v : Bool) (h : p.utf8_cache = some v) :
    (readSupportsUtf8 p).2.utf8_cache = some v := by
  simp [readSupportsUtf8, h]

theorem fwFieldsMinor0_cacheKept (p : Printer) (data : List Nat) (r : Printer × Nat)
    (h : fwFieldsMinor0 p data = some r) : CacheKept p r.1 := by
  simp only [fwFieldsMinor0, Option.bind_eq_bind', Option.bind_eq_some',
    Option.pure_def, Option.some.injEq] at h
  obtain ⟨fwMin, -, hr⟩ := h
  subst hr
  exact ⟨rfl, rfl, rfl, fun _ hv => hv⟩

theorem fwFieldsMinor1_cacheKept (p : Printer) (data : List Nat) (r : Printer × Nat)
    (h : fwFieldsMinor1 p data = some r) : CacheKept p r.1 := by
  simp only [fwFieldsMinor1, Option.bind_eq_bind', Option.bind_eq_some',
    Option.pure_def, Option.some.injEq] at h
  obtain ⟨fwMin, -, hr⟩ := h
  subst hr
  exact ⟨rfl, rfl, rfl, fun _ hv => hv⟩

theorem fwFieldsMinor2_cacheKept (p : Printer) (data : List Nat) (r : Printer × Nat)
    (h : fwFieldsMinor2 p data = some r) : CacheKept p r.1 := by
  simp only [fwFieldsMinor2, Option.bind_eq_bind', Option.bind_eq_some',
    Option.pure_def, Option.some.injEq] at h
  obtain ⟨fwRev, -, fwMin, -, hr⟩ := h
  subst hr
  exact ⟨rfl, rfl, rfl, fun _ hv => hv⟩

theorem applyVersionFields_cacheKept (p : Printer) (pmin : Int) (data : List Nat)
    (r : Printer × Nat) (h : applyVersionFields p pmin data = some r) :
    CacheKept p r.1 := by
  simp only [applyVersionFields, Option.bind_eq_some', Option.some.injEq] at h
  obtain ⟨hwMin, -, hwMaj, -, po, hpo, fwMaj, -, hr⟩ := h
  subst hr
  have hstep : CacheKept p po.1 := by
    split at hpo
    · have hk := fwFieldsMinor0_cacheKept _ _ _ hpo
      exact cacheKept_trans ⟨rfl, rfl, rfl, fun _ hv => hv⟩ hk
    · split at hpo
      · have hk := fwFieldsMinor1_cacheKept _ _ _ hpo
        exact cacheKept_trans ⟨rfl, rfl, rfl, fun _ hv => hv⟩ hk
      · split at hpo
        · have hk := fwFieldsMinor2_cacheKept _ _ _ hpo
          exact cacheKept_trans ⟨rfl, rfl, rfl, fun _ hv => hv⟩ hk
        · simp only [Option.some.injEq] at hpo
          subst hpo
          exact ⟨rfl, rfl, rfl, fun _ hv => hv⟩
  exact cacheKept_trans hstep ⟨rfl, rfl, rfl, fun _ hv => hv⟩

theorem applyTextFields_cacheKept (dec : Bool → List Nat → Option (List Nat))
    (p : Printer) (data : List Nat) (off : Nat) (r : Printer)
    (h : applyTextFields dec p data off = some r) : CacheKept p r := by
  simp only [applyTextFields, Option.bind_eq_bind', Option.bind_eq_some',
    Option.pure_def, Option.some.injEq] at h
  obtain ⟨nameBytes, -, nameStr, -, serialBytes, -, serialStr, -, macBytes, -, hr⟩ := h
  subst hr
  refine ⟨?_, ?_, ?_, fun v hv => ?_⟩
  · simp [rsU_profiles]
  · simp [rsU_clean]
  · simp [rsU_preheat]
  · exact rsU_utf8_some _ v (rsU_utf8_some _ v hv)

theorem applyToolhead_cacheKept (dec : Bool → List Nat → Option (List Nat))
    (sNN : Printer → List Nat → Printer) (sNT : Printer → Int → Printer)
    (sPN : Printer → List Nat → Printer) (p : Printer) (data : List Nat)
    (base : Nat) (r : Printer)
    (hNN : ∀ q v, CacheKept q (sNN q v))
    (hNT : ∀ q v, CacheKept q (sNT q v))
    (hPN : ∀ q v, CacheKept q (sPN q v))
    (h : applyToolhead dec sNN sNT sPN p data base = some r) : CacheKept p r := by
  simp only [applyToolhead, Option.bind_eq_bind', Option.bind_eq_some',
    Option.pure_def, Option.some.injEq] at h
  obtain ⟨nn, hnn, nns, hnns, nt, hnt, pn, hpn, pns, hpns, hr⟩ := h
  subst hr
  have k1 : CacheKept p (readSupportsUtf8 p).2 :=
    ⟨rsU_profiles p, rsU_clean p, rsU_preheat p, fun v hv => rsU_utf8_some p v hv⟩
  have k2 := hNN (readSupportsUtf8 p).2 nns
  have k3 := hNT (sNN (readSupportsUtf8 p).2 nns) nt
  have k4 : CacheKept (sNT (sNN (readSupportsUtf8 p).2 nns) nt)
      (readSupportsUtf8 (sNT (sNN (readSupportsUtf8 p).2 nns) nt)).2 :=
    ⟨rsU_profiles _, rsU_clean _, rsU_preheat _, fun v hv => rsU_utf8_some _ v hv⟩
  have k5 := hPN (readSupportsUtf8 (sNT (sNN (readSupportsUtf8 p).2 nns) nt)).2 pns
  exact cacheKept_trans (cacheKept_trans (cacheKept_trans (cacheKept_trans k1 k2) k3) k4) k5

theorem applyPrinterInfo_cacheKept (dec : Bool → List Nat → Option (List Nat))
    (p : Printer) (pmaj pmin : Int) (data : List Nat) (q : Printer)
    (h : applyPrinterInfo dec p pmaj pmin data = some q) : CacheKept p q := by
  simp only [applyPrinterInfo, Option.bind_eq_bind', Option.bind_eq_some'] at h
  obtain ⟨po, hpo, p1, hp1, p2, hp2, h3⟩ := h
  have k0 : CacheKept p ({ p with protocol_major := pmaj, protocol_minor := pmin } : Printer) :=
    ⟨rfl, rfl, rfl, fun _ hv => hv⟩
  have k1 := applyVersionFields_cacheKept _ _ _ _ hpo
  have k2 := applyTextFields_cacheKept _ _ _ _ _ hp1
  have k3 : CacheKept p1 p2 := by
    refine applyToolhead_cacheKept _ _ _ _ _ _ _ _ ?_ ?_ ?_ hp2 <;>
      exact fun a v => ⟨rfl, rfl, rfl, fun _ hv => hv⟩
  have k4 : CacheKept p2 q := by
    refine applyToolhead_cacheKept _ _ _ _ _ _ _ _ ?_ ?_ ?_ h3 <;>
      exact fun a v => ⟨rfl, rfl, rfl, fun _ hv => hv⟩
  exact cacheKept_trans (cacheKept_trans (cacheKept_trans (cacheKept_trans k0 k1) k2) k3) k4

/-- C7: Profiles capability boundary: the predicate holds exactly when
protocol major = 1 and either (minor at most 1 and (fw major above 5 or
fw major = 5 with fw minor at least 220)) or minor = 2; at protocol 1.1 it
holds for firmware 5.220 and fails for firmware 5.219. -/
theorem supports_profiles_boundary :
    (∀ p : Printer, supports_profiles_value p = true ↔
      (p.protocol_major = 1 ∧
        ((p.protocol_minor ≤ 1 ∧
            (p.fw_version_major > 5 ∨
              (p.fw_version_major = 5 ∧ p.fw_version_minor ≥ 220))) ∨
          p.protocol_minor = 2))) ∧
      supports_profiles_value (printerWithVersions 1 1 5 220) = true ∧
      supports_profiles_value (printerWithVersions 1 1 5 219) = false := by
  refine ⟨fun p => ?_, by decide, by decide⟩
  simp [supports_profiles_value]

/-- C6 counterexample: on a fresh device whose profiles flag was read once
before any identity refresh (cached false from the default version zero),
an identity refresh that applies protocol (1, 2) - for which the profiles
predicate is true - leaves a subsequent read returning the stale false,
contradicting the claim that every subsequently read flag equals the
predicate applied to the latest refreshed version values. -/
theorem capability_cache_counterexample :
    (applyPrinterInfo asciiDec c6Printer 1 2 zeros183).map
        (fun q => ((readSupportsProfiles q).1, supports_profiles_value q)) =
      some (false, true) := by decide

/-- C6 (amended): each capability flag is computed at its first read and
cached for the lifetime of the instance; an identity refresh never
invalidates a cache, so any flag whose cache held a value before the
refresh still returns exactly that value when read afterwards. -/
theorem capability_cache_first_read_persists
    (dec : Bool → List Nat → Option (List Nat)) (p : Printer)
    (pmaj pmin : Int) (data : List Nat) (q : Printer)
    (hq : applyPrinterInfo dec p pmaj pmin data = some q) :
    (∀ v, p.profiles_cache = some v → (readSupportsProfiles q).1 = v) ∧
      (∀ v, p.clean_cache = some v → (readSupportsCleanFilesystem q).1 = v) ∧
      (∀ v, p.preheat_cache = some v → (readSupportsPreheatJournal q).1 = v) ∧
      (∀ v, p.utf8_cache = some v → (readSupportsUtf8 q).1 = v) := by
  obtain ⟨k1, k2, k3, k4⟩ := applyPrinterInfo_cacheKept dec p pmaj pmin data q hq
  refine ⟨fun v hv => ?_, fun v hv => ?_, fun v hv => ?_, fun v hv => ?_⟩
  · rw [readSupportsProfiles, k1, hv]
  · rw [readSupportsCleanFilesystem, k2, hv]
  · rw [readSupportsPreheatJournal, k3, hv]
  · rw [readSupportsUtf8, k4 v hv]

/-- Witness for the amended C6 at a concrete refresh over a device whose
four caches hold false. -/
theorem capability_cache_first_read_persists_witness :
    (readSupportsProfiles c6CachedAfter).1 = false :=
  (capability_cache_first_read_persists asciiDec c6Cached 1 2 zeros183
    c6CachedAfter (by decide)).1 false (by decide)

/-- C2 (code bug): the source builds the events list from the 4-byte signed
slots (id at most 0 skipped, otherwise code = id with severity INFO (0),
source NONE (0), timestamp 0) but never assigns it to the snapshot, so on a
major-1 payload whose first event slot holds id 5 the locally parsed list
is nonempty while the returned Live State snapshot has an empty events
list; the claim also names UNKNOWN (-1) as the severity and source, where
the code constructs EventSeverity(0) = INFO and EventSource(0) = NONE. -/
theorem state_events_never_stored :
    get_printer_state asciiDec (initPrinter 0 54321) 1 c2StatePayload =
        .ok { state := 1, status := 4, task_name := [], task_progress := 0,
              task_remaining := 0, first_nozzle_temperature := 0,
              second_nozzle_temperature := 0, chamber_temperature := 0,
              bed_temperature := 0, events := [], pause_reason := 0,
              stop_reason := 0, ready := false, preheat_state := false,
              events_require_upgrade := false } ∧
      stateEventsLocal 1 false c2StatePayload =
        some [{ code := 5, severity := 0, source := 0, timestamp := 0 }] := by
  exact ⟨by rfl, by decide⟩

/-- C3 counterexample: the major-2 event slot encoding id 0x040A = 1034
parses to severity 2 and source 1 as claimed, but its code is
(1034 shifted right 3) AND 127 = 1, not the claimed 65. -/
theorem event_v2_code_counterexample :
    parse_event_v2 [10, 4, 0, 0, 0, 0] ≠
        some (some { code := 65, severity := 2, source := 1, timestamp := 0 }) ∧
      parse_event_v2 [10, 4, 0, 0, 0, 0] =
        some (some { code := 1, severity := 2, source := 1, timestamp := 0 }) := by
  exact ⟨by decide, by decide⟩

/-- C3 (amended): for a major-2 six-byte event slot, a zero id produces no
event and a nonzero id produces severity = id AND 7, source = (id shifted
right 10) AND 63, code = (id shifted right 3) AND 127 and the four-byte
timestamp as read; in particular id 0x040A gives severity 2, source 1 and
code 1. -/
theorem event_v2_bitfields (b0 b1 t0 t1 t2 t3 : Nat) :
    parse_event_v2 [b0, b1, t0, t1, t2, t3] =
        (if b0 + 256 * b1 = 0 then some none
         else some (some
            { code := Int.ofNat (((b0 + 256 * b1) >>> 3) &&& 127)
              severity := Int.ofNat ((b0 + 256 * b1) &&& 7)
              source := Int.ofNat (((b0 + 256 * b1) >>> 10) &&& 63)
              timestamp := Int.ofNat (leValue [t0, t1, t2, t3]) })) ∧
      parse_event_v2 [10, 4, 0, 0, 0, 0] =
        some (some { code := 1, severity := 2, source := 1, timestamp := 0 }) := by
  refine ⟨?_, by decide⟩
  simp [parse_event_v2, readUIntLE, leValue, List.drop, List.take]

/-- C4 (code bug): decoding a correct-length major-1 state payload whose
state field holds the unmapped value 9 fails with ValueError for every
codec, where the claim says every unmapped enum value is preserved as a raw
integer without failing; the unmapped nozzle-type half of the claim does
hold: identity decoding with nozzle-type byte 99 succeeds and stores the
raw 99. -/
theorem state_unmapped_enum_fatal :
    (∀ dec : Bool → List Nat → Option (List Nat),
        get_printer_state dec (initPrinter 0 54321) 1 c4StatePayload =
          .error .valueError) ∧
      (applyPrinterInfo asciiDec (initPrinter 0 54321) 1 0 c4NozzlePayload).map
          (fun q => q.first_nozzle_type) = some 99 := by
  exact ⟨fun dec => rfl, by decide⟩

theorem firstOccurrences_congr {α κ : Type} [DecidableEq κ] (key : α → κ)
    (seen1 seen2 : List κ) (hs : ∀ x, x ∈ seen1 ↔ x ∈ seen2) :
    ∀ l : List α, firstOccurrences key seen1 l = firstOccurrences key seen2 l := by
  intro l
  induction l generalizing seen1 seen2 with
  | nil => rfl
  | cons x xs ih =>
      simp only [firstOccurrences]
      by_cases hx : key x ∈ seen1
      · rw [if_pos hx, if_pos ((hs (key x)).mp hx)]
        exact ih seen1 seen2 hs
      · rw [if_neg hx, if_neg (fun hc => hx ((hs (key x)).mpr hc))]
        refine congrArg (List.cons x) (ih _ _ fun y => ?_)
        simp only [List.mem_cons]
        exact or_congr Iff.rfl (hs y)

theorem sEntries_cons_none (dec : Bool → List Nat → Option (List Nat))
    (addr : Nat × Nat) (d : List Nat) (rest : List ((Nat × Nat) × List Nat))
    (hp : parseSearchReply dec addr.1 d = none) :
    sEntries dec ((addr, d) :: rest) = sEntries dec rest := by
  simp [sEntries, List.filterMap_cons, hp]

theorem aEntries_cons_none (dec : Bool → List Nat → Option (List Nat))
    (addr : Nat × Nat) (d : List Nat) (rest : List ((Nat × Nat) × List Nat))
    (hp : parseSearchReply dec addr.1 d = none) :
    aEntries dec ((addr, d) :: rest) = aEntries dec rest := by
  simp [aEntries, List.filterMap_cons, hp]

theorem sEntries_cons_truthy (dec : Bool → List Nat → Option (List Nat))
    (addr : Nat × Nat) (d : List Nat) (rest : List ((Nat × Nat) × List Nat))
    (pr : Printer) (hp : parseSearchReply dec addr.1 d = some pr)
    (ht : serialTruthy pr = true) :
    sEntries dec ((addr, d) :: rest) = (serialKey pr, pr) :: sEntries dec rest := by
  simp [sEntries, List.filterMap_cons, hp, ht]

theorem aEntries_cons_truthy (dec : Bool → List Nat → Option (List Nat))
    (addr : Nat × Nat) (d : List Nat) (rest : List ((Nat × Nat) × List Nat))
    (pr : Printer) (hp : parseSearchReply dec addr.1 d = some pr)
    (ht : serialTruthy pr = true) :
    aEntries dec ((addr, d) :: rest) = aEntries dec rest := by
  simp [aEntries, List.filterMap_cons, hp, ht]

theorem sEntries_cons_falsy (dec : Bool → List Nat → Option (List Nat))
    (addr : Nat × Nat) (d : List Nat) (rest : List ((Nat × Nat) × List Nat))
    (pr : Printer) (hp : parseSearchReply dec addr.1 d = some pr)
    (ht : serialTruthy pr = false) :
    sEntries dec ((addr, d) :: rest) = sEntries dec rest := by
  simp [sEntries, List.filterMap_cons, hp, ht]

theorem aEntries_cons_falsy (dec : Bool → List Nat → Option (List Nat))
    (addr : Nat × Nat) (d : List Nat) (rest : List ((Nat × Nat) × List Nat))
    (pr : Printer) (hp : parseSearchReply dec addr.1 d = some pr)
    (ht : serialTruthy pr = false) :
    aEntries dec ((addr, d) :: rest) = (addr, pr) :: aEntries dec rest := by
  simp [aEntries, List.filterMap_cons, hp, ht]

theorem searchLoop_eq (dec : Bool → List Nat → Option (List Nat))
    (rs : List ((Nat × Nat) × List Nat)) :
    ∀ (s : List (List Nat × Printer)) (a : List ((Nat × Nat) × Printer)),
      searchLoop dec rs s a =
        (s ++ firstOccurrences Prod.fst (s.map Prod.fst) (sEntries dec rs),
         a ++ firstOccurrences Prod.fst (a.map Prod.fst) (aEntries dec rs)) := by
  induction rs with
  | nil =>
      intro s a
      simp [searchLoop, sEntries, aEntries, firstOccurrences]
  | cons ad rest ih =>
      intro s a
      obtain ⟨addr, d⟩ := ad
      cases hp : parseSearchReply dec addr.1 d with
      | none =>
          simp only [searchLoop, hp]
          rw [ih s a, sEntries_cons_none dec addr d rest hp,
            aEntries_cons_none dec addr d rest hp]
      | some printer =>
          cases ht : serialTruthy printer with
          | true =>
              rw [sEntries_cons_truthy dec addr d rest printer hp ht,
                aEntries_cons_truthy dec addr d rest printer hp ht]
              by_cases hm : serialKey printer ∈ s.map Prod.fst
              · simp only [searchLoop, hp, ht, if_true, hm, if_pos]
                rw [ih s a]
                simp only [firstOccurrences]
                rw [if_pos hm]
              · simp only [searchLoop, hp, ht, if_true, hm, if_neg, not_false_iff]
                rw [ih (s ++ [(serialKey printer, printer)]) a]
                simp only [firstOccurrences]
                rw [if_neg hm]
                have hcongr := firstOccurrences_congr
                  (Prod.fst (α := List Nat) (β := Printer))
                  ((s ++ [(serialKey printer, printer)]).map Prod.fst)
                  (serialKey printer :: s.map Prod.fst)
                  (fun x => by simp [List.mem_append, or_comm])
                  (sEntries dec rest)
                rw [hcongr]
                simp
          | false =>
              rw [sEntries_cons_falsy dec addr d rest printer hp ht,
                aEntries_cons_falsy dec addr d rest printer hp ht]
              by_cases hm : addr ∈ a.map Prod.fst
              · simp only [searchLoop, hp, ht, Bool.false_eq_true, if_false, hm, if_pos]
                rw [ih s a]
                simp only [firstOccurrences]
                rw [if_pos hm]
              · simp only [searchLoop, hp, ht, Bool.false_eq_true, if_false, hm,
                  if_neg, not_false_iff]
                rw [ih s (a ++ [(addr, printer)])]
                simp only [firstOccurrences]
                rw [if_neg hm]
                have hcongr := firstOccurrences_congr
                  (Prod.fst (α := Nat × Nat) (β := Printer))
                  ((a ++ [(addr, printer)]).map Prod.fst)
                  (addr :: a.map Prod.fst)
                  (fun x => by simp [List.mem_append, or_comm])
                  (aEntries dec rest)
                rw [hcongr]
                simp

theorem sEntries_eq (dec : Bool → List Nat → Option (List Nat))
    (rs : List ((Nat × Nat) × List Nat)) :
    sEntries dec rs =
      ((discoveryEntries dec rs).filter fun e => serialTruthy e.2).map
        fun e => (serialKey e.2, e.2) := by
  induction rs with
  | nil => rfl
  | cons ad rest ih =>
      obtain ⟨addr, d⟩ := ad
      cases hp : parseSearchReply dec addr.1 d with
      | none =>
          simp [sEntries, discoveryEntries, List.filterMap_cons, hp] at ih ⊢
          exact ih
      | some printer =>
          cases ht : serialTruthy printer with
          | true =>
              simp [sEntries, discoveryEntries, List.filterMap_cons, hp, ht,
                List.filter_cons] at ih ⊢
              exact ih
          | false =>
              simp [sEntries, discoveryEntries, List.filterMap_cons, hp, ht,
                List.filter_cons] at ih ⊢
              exact ih

theorem aEntries_eq (dec : Bool → List Nat → Option (List Nat))
    (rs : List ((Nat × Nat) × List Nat)) :
    aEntries dec rs =
      (discoveryEntries dec rs).filter fun e => !serialTruthy e.2 := by
  induction rs with
  | nil => rfl
  | cons ad rest ih =>
      obtain ⟨addr, d⟩ := ad
      cases hp : parseSearchReply dec addr.1 d with
      | none =>
          simp [aEntries, discoveryEntries, List.filterMap_cons, hp] at ih ⊢
          exact ih
      | some printer =>
          cases ht : serialTruthy printer with
          | true =>
              simp [aEntries, discoveryEntries, List.filterMap_cons, hp, ht,
                List.filter_cons] at ih ⊢
              exact ih
          | false =>
              simp [aEntries, discoveryEntries, List.filterMap_cons, hp, ht,
                List.filter_cons] at ih ⊢
              exact ih

theorem firstOccurrences_map {α β κ : Type} [DecidableEq κ] (f : α → β)
    (key : β → κ) (seen : List κ) (l : List α) :
    firstOccurrences key seen (l.map f) =
      (firstOccurrences (fun x => key (f x)) seen l).map f := by
  induction l generalizing seen with
  | nil => rfl
  | cons x xs ih =>
      simp only [List.map_cons, firstOccurrences]
      by_cases hx : key (f x) ∈ seen
      · rw [if_pos hx, if_pos hx, ih]
      · rw [if_neg hx, if_neg hx, List.map_cons, ih]

/-- C8: Discovery deduplication and ordering: the collection loop of
search_printers equals the specification shape - parsed well-formed replies
with a non-empty serial deduplicated by serial (first occurrence kept, in
reply order), then replies with an empty serial deduplicated by source
address, serial-keyed results first; in particular two replies carrying the
same non-empty serial from distinct addresses yield one result and two
replies from distinct addresses with empty serials yield two results. -/
theorem discovery_dedup_and_ordering :
    (∀ (dec : Bool → List Nat → Option (List Nat))
        (responses : List ((Nat × Nat) × List Nat)),
        search_printers_dedup dec responses = searchResultSpec dec responses) ∧
      (search_printers_dedup asciiDec
          [((1, 49149), c8SerialReply), ((2, 49149), c8SerialReply)]).length = 1 ∧
      (search_printers_dedup asciiDec
          [((1, 49149), c8EmptyReply), ((2, 49149), c8EmptyReply)]).length = 2 := by
  refine ⟨fun dec responses => ?_, by decide, by decide⟩
  rw [search_printers_dedup, searchLoop_eq dec responses [] []]
  simp only [List.nil_append, List.map_nil]
  rw [sEntries_eq, aEntries_eq, searchResultSpec,
    firstOccurrences_map (fun e => (serialKey e.2, e.2)) Prod.fst []
      ((discoveryEntries dec responses).filter fun e => serialTruthy e.2)]
  simp [List.map_map, Function.comp]
